import Mathlib

/-!
Verification development for the Translation Session Manager of
`src/lesson5/lesson5_7.py` (class `TranslationAgent`).

The agent's logic is embedded shallowly:
* Python strings are Lean `String`s; `len` and slicing act on the
  character list `String.data`, matching Python's code-point semantics.
* The mutable `self.translation_history` list is threaded explicitly as a
  `List TranslationRecord`.
* The Ollama model collaborator (`self.model.invoke`) is an explicit
  parameter of type `String → Except String String`: `Except.ok r` models a
  response (already coerced to text), `Except.error e` models a raised
  exception whose `str(e)` is `e`.
* The f-string template plus `ChatPromptTemplate.format(text=...)` is
  modelled as literal string concatenation (`renderPrompt`).
-/

namespace TranslationAgent

/-- Python `str.isspace()` — the character set removed by `str.strip()`:
space, `\t`-`\r` (tab, newline, vertical tab, form feed, carriage return),
the separators `\x1c`-`\x1f`, and the Unicode whitespace code points
U+0085, U+00A0, U+1680, U+2000-U+200A, U+2028, U+2029, U+202F, U+205F,
U+3000. -/
def isPySpace (c : Char) : Bool :=
  let n := c.toNat
  n == 32 || (9 ≤ n && n ≤ 13) || (28 ≤ n && n ≤ 31) ||
  n == 0x85 || n == 0xA0 || n == 0x1680 ||
  (0x2000 ≤ n && n ≤ 0x200A) ||
  n == 0x2028 || n == 0x2029 || n == 0x202F || n == 0x205F || n == 0x3000

/-- Python `source_text.strip()`: remove leading and trailing whitespace. -/
def pyStrip (s : String) : String :=
  String.mk (((s.data.dropWhile isPySpace).reverse.dropWhile isPySpace).reverse)

/-- Python `s[:n]`: the first `n` characters of `s`. -/
def pyTake (s : String) (n : Nat) : String :=
  String.mk (s.data.take n)

/-- Python `len(s)`: the number of characters of `s`. -/
def pyLen (s : String) : Nat :=
  s.data.length

/-- `takeMatch pat s` is `true` iff `pat` occurs at the very start of `s`. -/
def takeMatch : List Char → List Char → Bool
  | [], _ => true
  | _ :: _, [] => false
  | c :: cs, d :: ds => c == d && takeMatch cs ds

/-- `hasSub pat s` is `true` iff `pat` occurs contiguously somewhere in `s`. -/
def hasSub (pat : List Char) : List Char → Bool
  | [] => takeMatch pat []
  | d :: ds => takeMatch pat (d :: ds) || hasSub pat ds

/-- `strContains s pat` : `pat` is a contiguous substring of `s`. -/
def strContains (s pat : String) : Bool :=
  hasSub pat.data s.data

/-- One entry of `self.translation_history` (the `translation_record` dict
built in `translate_text`, lines 77-85 of the source). -/
structure TranslationRecord where
  source_text : String
  source_language : String
  target_language : String
  domain : String
  tone_style : String
  translation : String
  prompt : String
deriving DecidableEq, Repr

/-- The dict returned by `translate_text`
(`{"translation": ..., "prompt": ..., "status": ...}`). -/
structure TransResult where
  translation : String
  prompt : String
  status : String
deriving DecidableEq, Repr

/-- `self.languages` (source lines 20-31): display label ↦ label intended
for the instruction text. -/
def languages : List (String × String) :=
  [("繁體中文", "繁體中文"), ("简体中文", "简体中文"), ("English", "英文"),
   ("日本語", "日文"), ("한국어", "韓文"), ("Français", "法文"),
   ("Deutsch", "德文"), ("Español", "西班牙文"), ("Italiano", "義大利文"),
   ("Português", "葡萄牙文")]

/-- `self.domains` (source lines 34-37). -/
def domains : List String :=
  ["一般", "商業", "科技", "醫學", "法律", "學術", "文學",
   "新聞", "行銷", "教育", "工程", "金融", "旅遊", "藝術"]

/-- `self.tone_styles` (source lines 40-42). -/
def tone_styles : List String :=
  ["正式", "友善", "專業", "輕鬆", "學術", "商務", "創意", "簡潔"]

/-- The string `formatted_prompt` (source lines 69-70):
`ChatPromptTemplate.from_template(complex_template).format(text=source_text)`
renders the single human message of the `complex_template` f-string
(source lines 56-67) with the `{text}` slot substituted, and serialises it
through `get_buffer_string`, which prepends `"Human: "`. For the brace-free
catalog values this is pure substitution of the five fields. -/
def renderPrompt (source_text source_language target_language domain tone_style : String) : String :=
  "Human: " ++
  "\n你是一位專業的" ++ target_language ++ "翻譯家，專精於" ++ domain ++
  "領域，擅長" ++ tone_style ++ "風格的翻譯。\n請將以下" ++ source_language ++
  "文本翻譯成" ++ target_language ++ "，並確保：\n1. 保持原文的語氣和風格（" ++
  tone_style ++ "）\n2. 使用" ++ domain ++ "領域的專業術語\n3. 符合" ++
  target_language ++ "的語言習慣\n4. 保持原文的語義完整性\n5. 提供自然流暢的翻譯結果\n\n" ++
  source_language ++ "文本：" ++ source_text ++ "\n" ++ target_language ++ "翻譯：\n"

/-- `TranslationAgent.translate_text` (source lines 44-99), with the history
list threaded explicitly: returns the result dict and the new history. -/
def translate_text (model : String → Except String String)
    (history : List TranslationRecord)
    (source_text source_language target_language domain tone_style : String) :
    TransResult × List TranslationRecord :=
  if (pyStrip source_text).isEmpty then
    ({ translation := "請輸入要翻譯的文本", prompt := "", status := "error" }, history)
  else
    let formatted_prompt :=
      renderPrompt source_text source_language target_language domain tone_style
    match model formatted_prompt with
    | Except.ok response =>
        let translation_result := response
        let translation_record : TranslationRecord :=
          { source_text := source_text
            source_language := source_language
            target_language := target_language
            domain := domain
            tone_style := tone_style
            translation := translation_result
            prompt := formatted_prompt }
        ({ translation := translation_result, prompt := formatted_prompt,
           status := "success" },
         history ++ [translation_record])
    | Except.error e =>
        ({ translation := "翻譯過程中發生錯誤: " ++ e, prompt := "",
           status := "error" }, history)

/-- Python `self.translation_history[-10:]`: the last (at most) ten entries. -/
def lastTen (l : List TranslationRecord) : List TranslationRecord :=
  l.drop (l.length - 10)

/-- `record['source_text'][:100]` followed by `'...' if len(...) > 100 else ''`
(source line 110). -/
def shownSource (r : TranslationRecord) : String :=
  pyTake r.source_text 100 ++ (if 100 < pyLen r.source_text then "..." else "")

/-- `record['translation'][:150]` followed by `'...' if len(...) > 150 else ''`
(source line 111). -/
def shownTranslation (r : TranslationRecord) : String :=
  pyTake r.translation 150 ++ (if 150 < pyLen r.translation then "..." else "")

/-- The four `history_text +=` lines of the loop body (source lines 108-111). -/
def formatRecord (i : Nat) (r : TranslationRecord) : String :=
  "## " ++ toString i ++ ". " ++ r.source_language ++ " → " ++ r.target_language ++ "\n" ++
  "**領域**: " ++ r.domain ++ " | **風格**: " ++ r.tone_style ++ "\n" ++
  "**原文**: " ++ shownSource r ++ "\n" ++
  "**譯文**: " ++ shownTranslation r ++ "\n\n"

/-- `TranslationAgent.get_translation_history` (source lines 101-113):
`for i, record in enumerate(self.translation_history[-10:], 1)` accumulating
into `history_text`. -/
def get_translation_history (history : List TranslationRecord) : String :=
  if history.isEmpty then
    "尚無翻譯記錄"
  else
    ((lastTen history).enumFrom 1).foldl
      (fun acc p => acc ++ formatRecord p.1 p.2) "# 📚 翻譯歷史記錄\n\n"

/-- `TranslationAgent.clear_history` (source lines 115-118): the new history
plus the returned confirmation message. -/
def clear_history (history : List TranslationRecord) : String × List TranslationRecord :=
  ("✅ 翻譯歷史已清除", [])

/-- One externally triggerable operation of the agent (the three entry points
that touch the history log). -/
inductive AgentOp where
  | submit (model : String → Except String String)
      (source_text source_language target_language domain tone_style : String)
  | getHistory
  | clearHistory

/-- Effect of one operation on the history log. -/
def runOp (history : List TranslationRecord) : AgentOp → List TranslationRecord
  | AgentOp.submit model text s t d tn => (translate_text model history text s t d tn).2
  | AgentOp.getHistory => history
  | AgentOp.clearHistory => (clear_history history).2

end TranslationAgent

namespace TranslationAgent

/-! ### Basic string lemmas for the embedding -/

theorem strData_append (a b : String) : (a ++ b).data = a.data ++ b.data := by
  cases a; cases b; rfl

theorem strAppend_assoc (a b c : String) : a ++ b ++ c = a ++ (b ++ c) := by
  cases a; cases b; cases c
  show String.mk _ = String.mk _
  simp [String.append, List.append_assoc]

theorem takeMatch_refl : ∀ l : List Char, takeMatch l l = true := by
  intro l
  induction l with
  | nil => rfl
  | cons c cs ih => simp [takeMatch, ih]

theorem hasSub_self (l : List Char) : hasSub l l = true := by
  cases l with
  | nil => rfl
  | cons c cs => simp [hasSub, takeMatch_refl]

theorem hasSub_append_left (pat : List Char) :
    ∀ a : List Char, hasSub pat (a ++ pat) = true := by
  intro a
  induction a with
  | nil => simpa using hasSub_self pat
  | cons x xs ih => simp [hasSub, ih]

theorem strContains_append_right (a b : String) : strContains (a ++ b) b = true := by
  show hasSub b.data (a ++ b).data = true
  rw [strData_append]
  exact hasSub_append_left b.data a.data

theorem strMk_data (s : String) : String.mk s.data = s := by
  cases s; rfl

theorem strAppend_empty (s : String) : s ++ "" = s := by
  cases s
  show String.mk _ = String.mk _
  simp [String.append]

theorem strLen_append (a b : String) : pyLen (a ++ b) = pyLen a + pyLen b := by
  simp [pyLen, strData_append]

theorem renderPrompt_ne_empty (text s t d tn : String) :
    renderPrompt text s t d tn ≠ "" := by
  intro h
  have hlen : pyLen (renderPrompt text s t d tn) = 0 := by rw [h]; rfl
  have hpos : 0 < pyLen ("\n你是一位專業的" : String) := by decide
  simp only [renderPrompt, strLen_append] at hlen
  omega

/-! ### Claims -/

/-- Claim C1: submitting text that is non-empty after trimming, with a model
collaborator that returns a response, appends exactly one record to the
history; the record's five descriptive fields equal the call's inputs, it
also captures the rendered instruction and the response text, and the call
returns `{translation := response, prompt := rendered instruction,
status := "success"}`. -/
theorem submit_success_appends (model : String → Except String String)
    (history : List TranslationRecord)
    (source_text source_language target_language domain tone_style response : String)
    (hne : (pyStrip source_text).isEmpty = false)
    (hok : model (renderPrompt source_text source_language target_language domain tone_style) =
      Except.ok response) :
    (translate_text model history source_text source_language target_language domain tone_style).2 =
      history ++ [{ source_text := source_text, source_language := source_language,
                    target_language := target_language, domain := domain,
                    tone_style := tone_style, translation := response,
                    prompt := renderPrompt source_text source_language target_language domain tone_style }] ∧
    (translate_text model history source_text source_language target_language domain tone_style).2.length =
      history.length + 1 ∧
    (translate_text model history source_text source_language target_language domain tone_style).1 =
      { translation := response,
        prompt := renderPrompt source_text source_language target_language domain tone_style,
        status := "success" } := by
  refine ⟨?_, ?_, ?_⟩ <;> simp [translate_text, hne, hok]

/-- Claim C1 witness: a concrete successful submission. -/
theorem submit_success_appends_witness :
    (translate_text (fun _ => Except.ok "OK") [] "Hello world" "English" "繁體中文" "一般" "專業").2 =
      [] ++ [{ source_text := "Hello world", source_language := "English",
               target_language := "繁體中文", domain := "一般", tone_style := "專業",
               translation := "OK",
               prompt := renderPrompt "Hello world" "English" "繁體中文" "一般" "專業" }] ∧
    (translate_text (fun _ => Except.ok "OK") [] "Hello world" "English" "繁體中文" "一般" "專業").2.length =
      ([] : List TranslationRecord).length + 1 ∧
    (translate_text (fun _ => Except.ok "OK") [] "Hello world" "English" "繁體中文" "一般" "專業").1 =
      { translation := "OK",
        prompt := renderPrompt "Hello world" "English" "繁體中文" "一般" "專業",
        status := "success" } :=
  submit_success_appends (fun _ => Except.ok "OK") [] "Hello world" "English" "繁體中文"
    "一般" "專業" "OK" (by decide) rfl

/-- Claim C2: submitting text that is empty after trimming, for any choice of
the four selectors, returns the placeholder message with status `"error"` and
prompt `""`, leaves the history unchanged, and does not invoke the model
collaborator (the outcome is the same for every collaborator). -/
theorem submit_empty_input (model modelAlt : String → Except String String)
    (history : List TranslationRecord)
    (source_text source_language target_language domain tone_style : String)
    (hemp : (pyStrip source_text).isEmpty = true) :
    translate_text model history source_text source_language target_language domain tone_style =
      ({ translation := "請輸入要翻譯的文本", prompt := "", status := "error" }, history) ∧
    translate_text model history source_text source_language target_language domain tone_style =
      translate_text modelAlt history source_text source_language target_language domain tone_style := by
  constructor <;> simp [translate_text, hemp]

/-- Claim C2 witness: a concrete whitespace-only submission (including the
ideographic space U+3000, which `str.strip()` removes), with two
collaborators that differ everywhere. -/
theorem submit_empty_input_witness :
    translate_text (fun _ => Except.ok "OK") [] "　 \t \n " "English" "繁體中文" "一般" "專業" =
      ({ translation := "請輸入要翻譯的文本", prompt := "", status := "error" }, []) ∧
    translate_text (fun _ => Except.ok "OK") [] "　 \t \n " "English" "繁體中文" "一般" "專業" =
      translate_text (fun _ => Except.error "down") [] "　 \t \n " "English" "繁體中文" "一般" "專業" :=
  submit_empty_input (fun _ => Except.ok "OK") (fun _ => Except.error "down") []
    "　 \t \n " "English" "繁體中文" "一般" "專業" (by decide)

/-- Claim C3: submitting non-empty trimmed text with a collaborator that
raises returns `{translation := "翻譯過程中發生錯誤: " ++ e, prompt := "",
status := "error"}` — a message containing the failure description — leaves
the history unchanged, and returns normally (the exception is swallowed by
the handler; the collaborator is consulted exactly once by construction). -/
theorem submit_failure (model : String → Except String String)
    (history : List TranslationRecord)
    (source_text source_language target_language domain tone_style e : String)
    (hne : (pyStrip source_text).isEmpty = false)
    (herr : model (renderPrompt source_text source_language target_language domain tone_style) =
      Except.error e) :
    translate_text model history source_text source_language target_language domain tone_style =
      ({ translation := "翻譯過程中發生錯誤: " ++ e, prompt := "", status := "error" }, history) ∧
    strContains ("翻譯過程中發生錯誤: " ++ e) e = true := by
  refine ⟨?_, strContains_append_right _ _⟩
  simp [translate_text, hne, herr]

/-- Claim C3 witness: a concrete failing submission. -/
theorem submit_failure_witness :
    translate_text (fun _ => Except.error "connection refused") [] "Hello world"
        "English" "繁體中文" "一般" "專業" =
      ({ translation := "翻譯過程中發生錯誤: " ++ "connection refused", prompt := "",
         status := "error" }, []) ∧
    strContains ("翻譯過程中發生錯誤: " ++ "connection refused") "connection refused" = true :=
  submit_failure (fun _ => Except.error "connection refused") [] "Hello world"
    "English" "繁體中文" "一般" "專業" "connection refused" (by decide) rfl

/-- Claim C4: on an empty log `get_translation_history` returns the sentinel;
on a non-empty log it returns the accumulated rendering of the view
`lastTen history`, which holds exactly `min 10 history.length` records and is
a suffix of the log (the most recent records, in insertion order); the
rendered source text is truncated at 100 characters with an ellipsis exactly
when longer, and the rendered output text likewise at 150 characters. The
operation takes the log as input and returns only a string (read-only). -/
theorem getHistory_spec (history : List TranslationRecord) (hne : history ≠ []) :
    get_translation_history [] = "尚無翻譯記錄" ∧
    get_translation_history history =
      ((lastTen history).enumFrom 1).foldl (fun acc p => acc ++ formatRecord p.1 p.2)
        "# 📚 翻譯歷史記錄\n\n" ∧
    (lastTen history).length = min 10 history.length ∧
    (∃ older, older ++ lastTen history = history) ∧
    (∀ r : TranslationRecord,
      (pyLen r.source_text ≤ 100 → shownSource r = r.source_text) ∧
      (100 < pyLen r.source_text → shownSource r = pyTake r.source_text 100 ++ "...") ∧
      (pyLen r.translation ≤ 150 → shownTranslation r = r.translation) ∧
      (150 < pyLen r.translation → shownTranslation r = pyTake r.translation 150 ++ "...")) := by
  refine ⟨rfl, ?_, ?_, ?_, ?_⟩
  · cases history with
    | nil => exact absurd rfl hne
    | cons a l => rfl
  · simp only [lastTen, List.length_drop]
    omega
  · refine ⟨history.take (history.length - 10), ?_⟩
    simp [lastTen]
  · intro r
    refine ⟨?_, ?_, ?_, ?_⟩
    · intro hle
      simp only [shownSource]
      rw [if_neg (by omega : ¬ 100 < pyLen r.source_text), strAppend_empty]
      show String.mk (r.source_text.data.take 100) = r.source_text
      rw [List.take_of_length_le hle, strMk_data]
    · intro hgt
      simp only [shownSource]
      rw [if_pos hgt]
    · intro hle
      simp only [shownTranslation]
      rw [if_neg (by omega : ¬ 150 < pyLen r.translation), strAppend_empty]
      show String.mk (r.translation.data.take 150) = r.translation
      rw [List.take_of_length_le hle, strMk_data]
    · intro hgt
      simp only [shownTranslation]
      rw [if_pos hgt]

/-- Concrete record used by the `getHistory_spec` witness. -/
def sampleRecord : TranslationRecord :=
  { source_text := "Hi", source_language := "English", target_language := "繁體中文",
    domain := "一般", tone_style := "專業", translation := "嗨", prompt := "p" }

/-- Claim C4 witness: the history-view properties at a concrete one-record log. -/
theorem getHistory_spec_witness :
    get_translation_history [] = "尚無翻譯記錄" ∧
    get_translation_history [sampleRecord] =
      ((lastTen [sampleRecord]).enumFrom 1).foldl (fun acc p => acc ++ formatRecord p.1 p.2)
        "# 📚 翻譯歷史記錄\n\n" ∧
    (lastTen [sampleRecord]).length = min 10 [sampleRecord].length ∧
    (∃ older, older ++ lastTen [sampleRecord] = [sampleRecord]) ∧
    (∀ r : TranslationRecord,
      (pyLen r.source_text ≤ 100 → shownSource r = r.source_text) ∧
      (100 < pyLen r.source_text → shownSource r = pyTake r.source_text 100 ++ "...") ∧
      (pyLen r.translation ≤ 150 → shownTranslation r = r.translation) ∧
      (150 < pyLen r.translation → shownTranslation r = pyTake r.translation 150 ++ "...")) :=
  getHistory_spec [sampleRecord] (by decide)

/-- Claim C5: `clear_history` empties the log unconditionally and returns the
confirmation message; it is idempotent, and `get_translation_history` on the
cleared log returns the empty-state sentinel, whatever the prior log was. -/
theorem clearHistory_spec (history : List TranslationRecord) :
    (clear_history history).2 = [] ∧
    (clear_history history).1 = "✅ 翻譯歷史已清除" ∧
    clear_history (clear_history history).2 = clear_history history ∧
    get_translation_history (clear_history history).2 = "尚無翻譯記錄" :=
  ⟨rfl, rfl, rfl, rfl⟩

/-- Claim C6: submitting "Hello world" from "English" to "繁體中文" in domain
"一般" with tone "專業", against an echoing collaborator, produces exactly one
record whose rendered instruction contains the literal substrings "English",
"繁體中文", "一般", "專業" and "Hello world". -/
theorem example_record_prompt_literals :
    ((translate_text (fun p => Except.ok p) [] "Hello world" "English" "繁體中文" "一般" "專業").2.map
      (fun r => strContains r.prompt "English" && strContains r.prompt "繁體中文" &&
        strContains r.prompt "一般" && strContains r.prompt "專業" &&
        strContains r.prompt "Hello world")) = [true] := by
  decide

/-- Claim C7 counterexample: for the valid input `" hi "` the rendered
instruction is not the template with the trimmed text `"hi"` in the slot —
the code embeds the source text with its surrounding whitespace intact. -/
theorem submit_trimmed_slot_counterexample :
    (pyStrip " hi ").isEmpty = false ∧
    pyStrip " hi " = "hi" ∧
    (translate_text (fun p => Except.ok p) [] " hi " "English" "繁體中文" "一般" "專業").1.status =
      "success" ∧
    (translate_text (fun p => Except.ok p) [] " hi " "English" "繁體中文" "一般" "專業").1.prompt ≠
      renderPrompt (pyStrip " hi ") "English" "繁體中文" "一般" "專業" := by
  refine ⟨by decide, by decide, by decide, by decide⟩

/-- Claim C7 (amended): on valid input with a responding collaborator, the
returned prompt is the fixed five-point template with the four selectors
substituted and the source text embedded exactly as supplied (untrimmed) in
the designated slot between two selector-determined fixed pieces. -/
theorem submit_renders_template (model : String → Except String String)
    (history : List TranslationRecord)
    (source_text s t d tn response : String)
    (hne : (pyStrip source_text).isEmpty = false)
    (hok : model (renderPrompt source_text s t d tn) = Except.ok response) :
    (translate_text model history source_text s t d tn).1.prompt =
      renderPrompt source_text s t d tn ∧
    renderPrompt source_text s t d tn =
      ("Human: " ++ "\n你是一位專業的" ++ t ++ "翻譯家，專精於" ++ d ++ "領域，擅長" ++ tn ++
        "風格的翻譯。\n請將以下" ++ s ++ "文本翻譯成" ++ t ++
        "，並確保：\n1. 保持原文的語氣和風格（" ++ tn ++ "）\n2. 使用" ++ d ++
        "領域的專業術語\n3. 符合" ++ t ++
        "的語言習慣\n4. 保持原文的語義完整性\n5. 提供自然流暢的翻譯結果\n\n" ++ s ++ "文本：") ++
      source_text ++ ("\n" ++ t ++ "翻譯：\n") := by
  constructor
  · simp [translate_text, hne, hok]
  · simp [renderPrompt, strAppend_assoc]

/-- Claim C7 (amended) witness: the template decomposition at a concrete call. -/
theorem submit_renders_template_witness :
    (translate_text (fun _ => Except.ok "OK") [] " hi " "English" "繁體中文" "一般" "專業").1.prompt =
      renderPrompt " hi " "English" "繁體中文" "一般" "專業" ∧
    renderPrompt " hi " "English" "繁體中文" "一般" "專業" =
      ("Human: " ++ "\n你是一位專業的" ++ "繁體中文" ++ "翻譯家，專精於" ++ "一般" ++ "領域，擅長" ++ "專業" ++
        "風格的翻譯。\n請將以下" ++ "English" ++ "文本翻譯成" ++ "繁體中文" ++
        "，並確保：\n1. 保持原文的語氣和風格（" ++ "專業" ++ "）\n2. 使用" ++ "一般" ++
        "領域的專業術語\n3. 符合" ++ "繁體中文" ++
        "的語言習慣\n4. 保持原文的語義完整性\n5. 提供自然流暢的翻譯結果\n\n" ++ "English" ++ "文本：") ++
      " hi " ++ ("\n" ++ "繁體中文" ++ "翻譯：\n") :=
  submit_renders_template (fun _ => Except.ok "OK") [] " hi " "English" "繁體中文"
    "一般" "專業" "OK" (by decide) rfl

/-- Claim C8 counterexample: the `languages` catalog maps the display label
"English" to the instruction label "英文", yet a successful submission with
source language "English" produces an instruction that contains "English" and
does not contain "英文" anywhere: the mapped value is not what appears in the
instruction. -/
theorem catalog_mapped_label_counterexample :
    List.lookup "English" languages = some "英文" ∧
    (translate_text (fun p => Except.ok p) [] "Hello" "English" "繁體中文" "一般" "專業").1.status =
      "success" ∧
    strContains
      (translate_text (fun p => Except.ok p) [] "Hello" "English" "繁體中文" "一般" "專業").1.prompt
      "英文" = false ∧
    strContains
      (translate_text (fun p => Except.ok p) [] "Hello" "English" "繁體中文" "一般" "專業").1.prompt
      "English" = true := by
  refine ⟨by decide, by decide, by decide, by decide⟩

/-- Claim C8 (amended): the catalogs are fixed tables, but the rendered
instruction embeds each selector's display label itself — every selector
argument occurs verbatim as a contiguous substring of the instruction, in a
selector-determined position; the catalog's mapped values are not substituted. -/
theorem instruction_uses_display_labels (text s t d tn : String) :
    (∃ a b, renderPrompt text s t d tn = a ++ s ++ b) ∧
    (∃ a b, renderPrompt text s t d tn = a ++ t ++ b) ∧
    (∃ a b, renderPrompt text s t d tn = a ++ d ++ b) ∧
    (∃ a b, renderPrompt text s t d tn = a ++ tn ++ b) := by
  refine
    ⟨⟨"Human: " ++ "\n你是一位專業的" ++ t ++ "翻譯家，專精於" ++ d ++ "領域，擅長" ++ tn ++ "風格的翻譯。\n請將以下",
      "文本翻譯成" ++ t ++ "，並確保：\n1. 保持原文的語氣和風格（" ++ tn ++ "）\n2. 使用" ++ d ++
        "領域的專業術語\n3. 符合" ++ t ++
        "的語言習慣\n4. 保持原文的語義完整性\n5. 提供自然流暢的翻譯結果\n\n" ++ s ++ "文本：" ++
        text ++ "\n" ++ t ++ "翻譯：\n", ?_⟩,
     ⟨"Human: " ++ "\n你是一位專業的",
      "翻譯家，專精於" ++ d ++ "領域，擅長" ++ tn ++ "風格的翻譯。\n請將以下" ++ s ++ "文本翻譯成" ++
        t ++ "，並確保：\n1. 保持原文的語氣和風格（" ++ tn ++ "）\n2. 使用" ++ d ++
        "領域的專業術語\n3. 符合" ++ t ++
        "的語言習慣\n4. 保持原文的語義完整性\n5. 提供自然流暢的翻譯結果\n\n" ++ s ++ "文本：" ++
        text ++ "\n" ++ t ++ "翻譯：\n", ?_⟩,
     ⟨"Human: " ++ "\n你是一位專業的" ++ t ++ "翻譯家，專精於",
      "領域，擅長" ++ tn ++ "風格的翻譯。\n請將以下" ++ s ++ "文本翻譯成" ++ t ++
        "，並確保：\n1. 保持原文的語氣和風格（" ++ tn ++ "）\n2. 使用" ++ d ++
        "領域的專業術語\n3. 符合" ++ t ++
        "的語言習慣\n4. 保持原文的語義完整性\n5. 提供自然流暢的翻譯結果\n\n" ++ s ++ "文本：" ++
        text ++ "\n" ++ t ++ "翻譯：\n", ?_⟩,
     ⟨"Human: " ++ "\n你是一位專業的" ++ t ++ "翻譯家，專精於" ++ d ++ "領域，擅長",
      "風格的翻譯。\n請將以下" ++ s ++ "文本翻譯成" ++ t ++
        "，並確保：\n1. 保持原文的語氣和風格（" ++ tn ++ "）\n2. 使用" ++ d ++
        "領域的專業術語\n3. 符合" ++ t ++
        "的語言習慣\n4. 保持原文的語義完整性\n5. 提供自然流暢的翻譯結果\n\n" ++ s ++ "文本：" ++
        text ++ "\n" ++ t ++ "翻譯：\n", ?_⟩⟩ <;>
    simp [renderPrompt, strAppend_assoc]

/-- Claim C9: every agent operation either leaves the history log unchanged,
appends exactly one record at its end, or empties it entirely — so existing
entries keep their insertion order and are never edited in place. -/
theorem log_append_only (history : List TranslationRecord) (op : AgentOp) :
    runOp history op = history ∨
    (∃ r, runOp history op = history ++ [r]) ∨
    runOp history op = [] := by
  cases op with
  | submit model text s t d tn =>
    cases hemp : (pyStrip text).isEmpty with
    | true => left; simp [runOp, translate_text, hemp]
    | false =>
      cases hm : model (renderPrompt text s t d tn) with
      | error e => left; simp [runOp, translate_text, hemp, hm]
      | ok resp =>
        right; left
        refine ⟨{ source_text := text, source_language := s, target_language := t,
                  domain := d, tone_style := tn, translation := resp,
                  prompt := renderPrompt text s t d tn }, ?_⟩
        simp [runOp, translate_text, hemp, hm]
  | getHistory => left; rfl
  | clearHistory => right; right; rfl

/-- Claim C10: the result of `translate_text` has an empty prompt exactly when
its status is `"error"`: both error branches return prompt `""`, and the
success branch returns the rendered instruction, which is never empty. -/
theorem prompt_empty_iff_error (model : String → Except String String)
    (history : List TranslationRecord)
    (source_text source_language target_language domain tone_style : String) :
    ((translate_text model history source_text source_language target_language domain tone_style).1.prompt = "" ↔
      (translate_text model history source_text source_language target_language domain tone_style).1.status = "error") := by
  cases hemp : (pyStrip source_text).isEmpty with
  | true => simp [translate_text, hemp]
  | false =>
    cases hm : model (renderPrompt source_text source_language target_language domain tone_style) with
    | error e => simp [translate_text, hemp, hm]
    | ok resp =>
      simp only [translate_text, hemp, Bool.false_eq_true, if_false, hm]
      constructor
      · intro h
        exact absurd h (renderPrompt_ne_empty _ _ _ _ _)
      · intro h
        exact absurd h (by decide)

end TranslationAgent
